import Mathlib

/-!
Shallow embedding of the SrvWrap repository (a Windows service wrapper):
the configuration loader `GetSrvConfig`, the environment constructor
`GetSrvEnvironment`, the status reporter `ReportSvcStatus`, and the
service supervisor `SvcMain`, together with theorems checking the
natural-language specification against this embedding.
-/

namespace SrvWrap

/-! ## String helpers modelling `strchr` based splitting -/

/-- Split a character list at the first occurrence of `c`
(the part before `c`, the part after `c`); `none` if `c` does not occur.
Models the C idiom `strchr(line, c); *p = 0;` which splits a string in two. -/
def splitAtFirst (c : Char) : List Char → Option (List Char × List Char)
  | [] => none
  | x :: xs =>
    if x = c then some ([], xs)
    else
      match splitAtFirst c xs with
      | none => none
      | some (a, b) => some (x :: a, b)

/-- Split a string at the first occurrence of `c`. -/
def strchrSplit (c : Char) (s : String) : Option (String × String) :=
  match splitAtFirst c s.toList with
  | none => none
  | some (a, b) => some (a.asString, b.asString)

/-! ## Error codes: the `SetLastError` values used by the source -/

/-- The Windows error codes that the configuration loader actually sets
via `SetLastError`: `ERROR_FILE_NOT_FOUND`, `ERROR_BAD_FORMAT`,
`ERROR_READ_FAULT`, `ERROR_OUTOFMEMORY`. -/
inductive WinError where
  | fileNotFound
  | badFormat
  | readFault
  | outOfMemory
deriving DecidableEq, Repr

/-! ## Environment model -/

/-- The process environment: an ordered list of name/value pairs. -/
abbrev Env : Type := List (String × String)

/-- Win32 `SetEnvironmentVariable`: replace the value of an existing
variable, or append a fresh one. -/
def setEnvironmentVariable (env : Env) (name value : String) : Env :=
  if (env.any (fun p => p.1 == name)) then
    env.map (fun p => if p.1 == name then (name, value) else p)
  else env ++ [(name, value)]

/-! ## Configuration data model (`SRV_CONFIG` from SrvConfig.h) -/

/-- The `SRV_CONFIG` structure: the four `CreateProcess` arguments produced
by the loader.  `none` models a `NULL` pointer. -/
structure SrvConfig where
  lpApplicationName : Option String
  lpCommandLine : Option String
  lpCurrentDirectory : Option String
  lpEnvironment : Option Env
deriving DecidableEq, Repr

/-- Result of `GetSrvEnvironment`: the environment block stored through
`plpEnvironment` (the source always stores `NULL`, i.e. `none`), the ambient
process environment after the call (the source mutates it through
`SetEnvironmentVariable`), and whether the call consumed the remainder of
the configuration file (`inline` mode reads the shared `FILE*` to EOF). -/
structure EnvResult where
  lpEnvironment : Option Env
  ambient : Env
  consumedAll : Bool
deriving DecidableEq, Repr

/-- The inner loop of `GetSrvEnvironment`: read `name=value` lines and apply
each via `SetEnvironmentVariable`; empty lines are skipped; a line without
`=` fails with `ERROR_BAD_FORMAT`. -/
def setEnvLoop : Env → List String → Except WinError Env
  | env, [] => .ok env
  | env, line :: rest =>
    if line = "" then setEnvLoop env rest
    else
      match strchrSplit '=' line with
      | none => .error .badFormat
      | some (name, value) => setEnvLoop (setEnvironmentVariable env name value) rest

/-- `GetSrvEnvironment` from the source.  `fs` models the file system
(path to file contents, as newline-stripped lines); `pSource` is the value
of the `Environment` keyword; `inlineLines` are the remaining lines of the
configuration file (the shared `FILE*`); `ambient` is the current process
environment.  The source always stores `NULL` into `plpEnvironment` and
updates the ambient environment in place. -/
def GetSrvEnvironment (fs : String → Option (List String)) (pSource : String)
    (inlineLines : List String) (ambient : Env) : Except WinError EnvResult :=
  if pSource = "default" then
    .ok ⟨none, ambient, false⟩
  else if pSource = "inline" then
    match setEnvLoop ambient inlineLines with
    | .error e => .error e
    | .ok env1 => .ok ⟨none, env1, true⟩
  else
    match strchrSplit ':' pSource with
    | none => .error .badFormat
    | some (keyword, path) =>
      if keyword = "file" then
        match fs path with
        | none => .error .fileNotFound
        | some fileLines =>
          match setEnvLoop ambient fileLines with
          | .error e => .error e
          | .ok env1 => .ok ⟨none, env1, false⟩
      else .error .badFormat

/-- The line loop of `GetSrvConfig`: empty lines are skipped; a line
without `=` fails with `ERROR_BAD_FORMAT`; `ApplicationName`, `CommandLine`
and `CurrentDirectory` store the value verbatim (last occurrence wins);
`Environment` hands off to `GetSrvEnvironment` (which in `inline` mode
consumes the rest of the file); any other keyword fails with
`ERROR_BAD_FORMAT`. -/
def getSrvConfigLoop (fs : String → Option (List String)) :
    List String → SrvConfig → Env → Except WinError (SrvConfig × Env)
  | [], cfg, env => .ok (cfg, env)
  | line :: rest, cfg, env =>
    if line = "" then getSrvConfigLoop fs rest cfg env
    else
      match strchrSplit '=' line with
      | none => .error .badFormat
      | some (keyword, value) =>
        if keyword = "ApplicationName" then
          getSrvConfigLoop fs rest { cfg with lpApplicationName := some value } env
        else if keyword = "CommandLine" then
          getSrvConfigLoop fs rest { cfg with lpCommandLine := some value } env
        else if keyword = "CurrentDirectory" then
          getSrvConfigLoop fs rest { cfg with lpCurrentDirectory := some value } env
        else if keyword = "Environment" then
          match GetSrvEnvironment fs value rest env with
          | .error e => .error e
          | .ok r =>
            -- In `inline` mode the environment call reads the shared
            -- `FILE*` to EOF, so the next `fgets` of this loop returns
            -- NULL and the loop exits with the current configuration.
            if r.consumedAll then
              .ok ({ cfg with lpEnvironment := r.lpEnvironment }, r.ambient)
            else
              getSrvConfigLoop fs rest { cfg with lpEnvironment := r.lpEnvironment } r.ambient
        else .error .badFormat

/-- `GetSrvConfig` from the source: initialize all fields to `NULL`, open
the configuration file (failure is `ERROR_FILE_NOT_FOUND`) and run the
line loop.  The result pairs the configuration with the ambient
environment after the call. -/
def GetSrvConfig (fs : String → Option (List String)) (configName : String)
    (ambient : Env) : Except WinError (SrvConfig × Env) :=
  match fs configName with
  | none => .error .fileNotFound
  | some lines => getSrvConfigLoop fs lines ⟨none, none, none, none⟩ ambient

/-- The keyword of a configuration line: the part before the first `=`. -/
def configKeyword (line : String) : Option String :=
  match strchrSplit '=' line with
  | none => none
  | some (keyword, _) => some keyword

/-! ## Status reporter (`ReportSvcStatus`) -/

/-- The four `SERVICE_*` states that the source passes to
`ReportSvcStatus`. -/
inductive SvcState where
  | startPending
  | running
  | stopPending
  | stopped
deriving DecidableEq, Repr

/-- `SERVICE_ACCEPT_STOP` from winsvc.h. -/
def SERVICE_ACCEPT_STOP : Nat := 1

/-- The fields of `SERVICE_STATUS` that `ReportSvcStatus` fills in and
forwards to `SetServiceStatus`. -/
structure ServiceStatus where
  dwCurrentState : SvcState
  dwWin32ExitCode : Nat
  dwWaitHint : Nat
  dwControlsAccepted : Nat
  dwCheckPoint : Nat
deriving DecidableEq, Repr

/-- One call of `ReportSvcStatus`: `chk` is the function-static counter
`dwCheckPoint` (initialized to 1 at program start).  Returns the
`SERVICE_STATUS` forwarded to `SetServiceStatus` and the new value of the
static counter.  The source resets the forwarded checkpoint to 0 for
`SERVICE_RUNNING` and `SERVICE_STOPPED` and otherwise forwards the counter
and post-increments it. -/
def reportSvcStatusStep (chk : Nat) (state : SvcState) (exitCode waitHint : Nat) :
    ServiceStatus × Nat :=
  let controls := if state = SvcState.startPending then 0 else SERVICE_ACCEPT_STOP
  if state = SvcState.running ∨ state = SvcState.stopped then
    (⟨state, exitCode, waitHint, controls, 0⟩, chk)
  else
    (⟨state, exitCode, waitHint, controls, chk⟩, chk + 1)

/-- Run a sequence of `ReportSvcStatus` calls, threading the static
counter, and collect the statuses forwarded to `SetServiceStatus`. -/
def runReports : Nat → List (SvcState × Nat × Nat) → List ServiceStatus
  | _, [] => []
  | chk, (state, exitCode, waitHint) :: rest =>
    let out := reportSvcStatusStep chk state exitCode waitHint
    out.1 :: runReports out.2 rest

/-- Is this one of the two pending states? -/
def isPendingState : SvcState → Bool
  | SvcState.startPending => true
  | SvcState.stopPending => true
  | _ => false

/-- Checkpoint values forwarded while in a pending state, in report order. -/
def pendingCheckpoints (l : List ServiceStatus) : List Nat :=
  (l.filter (fun s => isPendingState s.dwCurrentState)).map (fun s => s.dwCheckPoint)

/-- Checkpoint values forwarded on `Running`/`Stopped` reports. -/
def nonPendingCheckpoints (l : List ServiceStatus) : List Nat :=
  (l.filter (fun s => !(isPendingState s.dwCurrentState))).map (fun s => s.dwCheckPoint)

/-! ## Supervisor (`SvcMain`) as a trace over a platform oracle -/

/-- Outcome of the `WaitForMultipleObjects` over the stop event (index 0)
and the child process handle (index 1). -/
inductive FirstWait where
  | stop
  | childExit
  | failed
deriving DecidableEq, Repr

/-- Outcome of the `WaitForSingleObject` on the child process with the
fixed 30-second timeout. -/
inductive StopWait where
  | childExit
  | timeout
  | failed
deriving DecidableEq, Repr

/-- Results of the platform calls made by `SvcMain`, fixed in advance:
one run of the state machine is determined by these outcomes. -/
structure Oracle where
  registerOk : Bool
  createEventOk : Bool
  allocConsoleOk : Bool
  configOk : Bool
  createProcessOk : Bool
  firstWait : FirstWait
  setCtrlHandlerOk : Bool
  generateCtrlEventOk : Bool
  stopWait : StopWait
  terminateOk : Bool
  getExitCodeOk : Bool
  exitCode : Nat
  lastErr : Nat
deriving DecidableEq, Repr

/-- Observable actions of one `SvcMain` run, in program order. -/
inductive Event where
  | report (state : SvcState)
  | logInfoEvent (msg : String)
  | logErrorRecord (operation : String) (code : Nat)
  | disableCtrlHandler
  | ctrlInterrupt
  | timerWait (millis : Nat)
  | getExitCode
  | terminate
  | closeProcessHandle
  | closeThreadHandle
deriving DecidableEq, Repr

/-- `waitSecondsBeforeKill` from the source: the escalation budget. -/
def waitSecondsBeforeKill : Nat := 30

/-- `LogError(op, bReportStopping)`: one error record with the last error
code; when `bReportStopping` is set, it also reports `SERVICE_STOPPED`. -/
def logErrorEvents (operation : String) (code : Nat) (reportStopping : Bool) : List Event :=
  Event.logErrorRecord operation code ::
    (if reportStopping then [Event.report SvcState.stopped] else [])

/-- The common tail of `SvcMain`: close the child process and thread
handles and report `SERVICE_STOPPED`. -/
def endSequence : List Event :=
  [Event.closeProcessHandle, Event.closeThreadHandle, Event.report SvcState.stopped]

/-- The branch of `SvcMain` taken when the wait reports the stop event
(`WAIT_OBJECT_0`): disable the console handler for the parent, send
CTRL+C, wait up to 30 seconds for the child, and kill it on timeout. -/
def stopPath (o : Oracle) : List Event :=
  Event.logInfoEvent "Service signaled to stop" ::
  Event.disableCtrlHandler ::
  if o.setCtrlHandlerOk = false then logErrorEvents "SetConsoleCtrlHandler" o.lastErr true
  else
    Event.ctrlInterrupt ::
    if o.generateCtrlEventOk = false then logErrorEvents "GenerateConsoleCtrlEvent" o.lastErr true
    else
      Event.timerWait (waitSecondsBeforeKill * 1000) ::
      match o.stopWait with
      | StopWait.childExit => endSequence
      | StopWait.timeout =>
        Event.logInfoEvent "Killing child process" ::
        Event.terminate ::
        (if o.terminateOk = false then logErrorEvents "TerminateProcess" o.lastErr true
         else endSequence)
      | StopWait.failed => logErrorEvents "WaitForSingleObject" o.lastErr true

/-- The branch of `SvcMain` taken when the wait reports child termination
(`WAIT_OBJECT_0 + 1`): report stop pending, read the child exit code and
log it as an error when non-zero. -/
def childExitPath (o : Oracle) : List Event :=
  Event.logInfoEvent "Child process terminated" ::
  Event.report SvcState.stopPending ::
  Event.getExitCode ::
  if o.getExitCodeOk = false then logErrorEvents "GetExitCodeProcess" o.lastErr true
  else if o.exitCode ≠ 0 then logErrorEvents "Child process" o.exitCode true
  else endSequence

/-- `SvcMain` from the source, as the event trace of one run under the
given platform oracle. -/
def SvcMain (o : Oracle) : List Event :=
  if o.registerOk = false then [Event.logErrorRecord "RegisterServiceCtrlHandler" o.lastErr]
  else
    Event.report SvcState.startPending ::
    if o.createEventOk = false then logErrorEvents "CreateEvent" o.lastErr true
    else if o.allocConsoleOk = false then logErrorEvents "AllocConsole" o.lastErr true
    else if o.configOk = false then logErrorEvents "GetSrvConfig" o.lastErr true
    else if o.createProcessOk = false then logErrorEvents "CreateProcess" o.lastErr true
    else
      Event.report SvcState.running ::
      match o.firstWait with
      | FirstWait.stop => stopPath o
      | FirstWait.childExit => childExitPath o
      | FirstWait.failed => logErrorEvents "WaitForMultipleObjects" o.lastErr true

/-- `EXIT_SUCCESS`. -/
def EXIT_SUCCESS : Nat := 0

/-- `EXIT_FAILURE`. -/
def EXIT_FAILURE : Nat := 1

/-- The exit status of `main`: bad argument count or a dispatcher failure
exit with `EXIT_FAILURE`; otherwise `main` returns `EXIT_SUCCESS` once the
service has stopped, independently of what happened inside `SvcMain`. -/
def mainResult (argc : Nat) (dispatcherOk : Bool) : Nat :=
  if argc ≠ 3 then EXIT_FAILURE
  else if dispatcherOk = false then EXIT_FAILURE
  else EXIT_SUCCESS

/-! ## Trace observers -/

/-- Number of cooperative interrupts (`GenerateConsoleCtrlEvent` calls). -/
def countInterrupts : List Event → Nat
  | [] => 0
  | Event.ctrlInterrupt :: rest => countInterrupts rest + 1
  | _ :: rest => countInterrupts rest

/-- Number of child process handle releases (`CloseHandle(pi.hProcess)`). -/
def countCloses : List Event → Nat
  | [] => 0
  | Event.closeProcessHandle :: rest => countCloses rest + 1
  | _ :: rest => countCloses rest

/-- Number of `GetExitCodeProcess` calls. -/
def countGetExitCode : List Event → Nat
  | [] => 0
  | Event.getExitCode :: rest => countGetExitCode rest + 1
  | _ :: rest => countGetExitCode rest

/-- The subsequence of escalation-relevant actions: interrupt delivery,
the timed wait, and forced termination. -/
def coreActions : List Event → List Event
  | [] => []
  | Event.ctrlInterrupt :: rest => Event.ctrlInterrupt :: coreActions rest
  | Event.timerWait m :: rest => Event.timerWait m :: coreActions rest
  | Event.terminate :: rest => Event.terminate :: coreActions rest
  | _ :: rest => coreActions rest

/-- The error records of a trace: operation name and error code. -/
def errorRecords : List Event → List (String × Nat)
  | [] => []
  | Event.logErrorRecord operation code :: rest => (operation, code) :: errorRecords rest
  | _ :: rest => errorRecords rest

/-- The states reported to the service control manager, in order. -/
def reportedStates : List Event → List SvcState
  | [] => []
  | Event.report s :: rest => s :: reportedStates rest
  | _ :: rest => reportedStates rest

/-! ## Concrete file systems used by counterexamples and witnesses -/

/-- A file system with no files. -/
def fsEmpty : String → Option (List String) := fun _ => none

/-- A configuration file without any `CommandLine` line. -/
def fsC2 : String → Option (List String) := fun name =>
  if name = "cfg" then some ["ApplicationName=x"] else none

/-- A configuration file with `Environment=inline` followed by a
`CommandLine` keyword line. -/
def fsC4 : String → Option (List String) := fun name =>
  if name = "cfg" then some ["Environment=inline", "CommandLine=x"] else none

/-- Three configuration files, one for each loader failure condition:
a line without `=`, an unrecognized keyword, and a bad `Environment`
source token. -/
def fsC8 : String → Option (List String) := fun name =>
  if name = "malformed" then some ["noequals"]
  else if name = "unknown" then some ["Foo=1"]
  else if name = "badsource" then some ["Environment=bogus"]
  else none

/-- A configuration file whose only line is a single space. -/
def fsC9 : String → Option (List String) := fun name =>
  if name = "cfg" then some [" "] else none

/-! ## Loader lemmas -/

/-- If `c` does not occur in the list, splitting at `c` yields `none`. -/
lemma splitAtFirst_eq_none_of_not_mem (c : Char) :
    ∀ l : List Char, c ∉ l → splitAtFirst c l = none := by
  intro l
  induction l with
  | nil => intro _; rfl
  | cons x xs ih =>
    intro h
    unfold splitAtFirst
    rw [if_neg (by intro hx; exact h (hx ▸ List.mem_cons_self x xs))]
    rw [ih (fun hx => h (List.mem_cons_of_mem x hx))]

/-- One step of the line loop on an empty line: the line is skipped. -/
lemma getSrvConfigLoop_empty (fs : String → Option (List String))
    (rest : List String) (cfg : SrvConfig) (env : Env) :
    getSrvConfigLoop fs ("" :: rest) cfg env = getSrvConfigLoop fs rest cfg env := rfl

/-- One step of the line loop on a non-empty line without `=`. -/
lemma getSrvConfigLoop_malformed (fs : String → Option (List String))
    (line : String) (rest : List String) (cfg : SrvConfig) (env : Env)
    (hl : line ≠ "") (hsplit : strchrSplit '=' line = none) :
    getSrvConfigLoop fs (line :: rest) cfg env = Except.error WinError.badFormat := by
  simp only [getSrvConfigLoop]
  rw [if_neg hl, hsplit]

/-- One step of the line loop on a `keyword=value` line. -/
lemma getSrvConfigLoop_keyword (fs : String → Option (List String))
    (line : String) (rest : List String) (cfg : SrvConfig) (env : Env)
    (keyword value : String)
    (hl : line ≠ "") (hsplit : strchrSplit '=' line = some (keyword, value)) :
    getSrvConfigLoop fs (line :: rest) cfg env =
      (if keyword = "ApplicationName" then
        getSrvConfigLoop fs rest { cfg with lpApplicationName := some value } env
      else if keyword = "CommandLine" then
        getSrvConfigLoop fs rest { cfg with lpCommandLine := some value } env
      else if keyword = "CurrentDirectory" then
        getSrvConfigLoop fs rest { cfg with lpCurrentDirectory := some value } env
      else if keyword = "Environment" then
        match GetSrvEnvironment fs value rest env with
        | Except.error e => Except.error e
        | Except.ok r =>
          if r.consumedAll then
            Except.ok ({ cfg with lpEnvironment := r.lpEnvironment }, r.ambient)
          else
            getSrvConfigLoop fs rest { cfg with lpEnvironment := r.lpEnvironment } r.ambient
      else Except.error WinError.badFormat) := by
  simp only [getSrvConfigLoop]
  rw [if_neg hl, hsplit]

/-- The loader's line loop never sets `lpCommandLine` unless it meets a
line whose keyword is `CommandLine`. -/
lemma getSrvConfigLoop_commandLine_invariant (fs : String → Option (List String)) :
    ∀ (lines : List String) (cfg : SrvConfig) (env : Env) (out : SrvConfig × Env),
      (∀ l ∈ lines, configKeyword l ≠ some "CommandLine") →
      getSrvConfigLoop fs lines cfg env = Except.ok out →
      out.1.lpCommandLine = cfg.lpCommandLine := by
  intro lines
  induction lines with
  | nil =>
    intro cfg env out _ h
    simp only [getSrvConfigLoop, Except.ok.injEq] at h
    rw [← h]
  | cons line rest ih =>
    intro cfg env out hno h
    have hrest : ∀ l ∈ rest, configKeyword l ≠ some "CommandLine" :=
      fun l hl => hno l (List.mem_cons_of_mem line hl)
    by_cases hl : line = ""
    · subst hl
      rw [getSrvConfigLoop_empty] at h
      exact ih cfg env out hrest h
    · cases hsplit : strchrSplit '=' line with
      | none =>
        rw [getSrvConfigLoop_malformed fs line rest cfg env hl hsplit] at h
        exact absurd h (by simp)
      | some kv =>
        obtain ⟨keyword, value⟩ := kv
        have hkw : keyword ≠ "CommandLine" := by
          have hline := hno line (List.mem_cons_self line rest)
          simp only [configKeyword, hsplit] at hline
          intro he
          exact hline (by rw [he])
        rw [getSrvConfigLoop_keyword fs line rest cfg env keyword value hl hsplit] at h
        by_cases h1 : keyword = "ApplicationName"
        · rw [if_pos h1] at h
          exact ih { cfg with lpApplicationName := some value } env out hrest h
        · rw [if_neg h1, if_neg hkw] at h
          by_cases h3 : keyword = "CurrentDirectory"
          · rw [if_pos h3] at h
            exact ih { cfg with lpCurrentDirectory := some value } env out hrest h
          · rw [if_neg h3] at h
            by_cases h4 : keyword = "Environment"
            · rw [if_pos h4] at h
              split at h
              · exact absurd h (by simp)
              · rename_i r henv
                split at h
                · simp only [Except.ok.injEq] at h
                  rw [← h]
                · exact ih { cfg with lpEnvironment := r.lpEnvironment } r.ambient out
                    hrest h
            · rw [if_neg h4] at h
              exact absurd h (by simp)

/-- A bad `Environment` source token: neither `default` nor `inline`, and
after splitting at the first colon the part before it is not `file`
(covering also the case of no colon at all). -/
def badEnvSource (v : String) : Bool :=
  !(v == "default") && !(v == "inline") &&
    (match strchrSplit ':' v with
     | none => true
     | some (kw, _) => !(kw == "file"))

/-- A bad `Environment` source token makes `GetSrvEnvironment` fail with
`ERROR_BAD_FORMAT`. -/
lemma getSrvEnvironment_badSource (fs : String → Option (List String)) (v : String)
    (rest : List String) (env : Env) (h : badEnvSource v = true) :
    GetSrvEnvironment fs v rest env = Except.error WinError.badFormat := by
  simp only [badEnvSource, Bool.and_eq_true, Bool.not_eq_true', beq_eq_false_iff_ne] at h
  obtain ⟨⟨hd, hi⟩, hcolon⟩ := h
  unfold GetSrvEnvironment
  rw [if_neg hd, if_neg hi]
  cases hsplit : strchrSplit ':' v with
  | none => rfl
  | some kv =>
    obtain ⟨kw, path⟩ := kv
    rw [hsplit] at hcolon
    simp at hcolon
    simp [hcolon]

/-- Every line is either empty or contains `=`, so the environment line
loop runs through to EOF and succeeds. -/
lemma setEnvLoop_total :
    ∀ (lines : List String) (env : Env),
      (∀ l ∈ lines, l = "" ∨ (strchrSplit '=' l).isSome = true) →
      ∃ env1, setEnvLoop env lines = Except.ok env1 := by
  intro lines
  induction lines with
  | nil => intro env _; exact ⟨env, rfl⟩
  | cons line rest ih =>
    intro env h
    have hrest : ∀ l ∈ rest, l = "" ∨ (strchrSplit '=' l).isSome = true :=
      fun l hl => h l (List.mem_cons_of_mem line hl)
    by_cases hl : line = ""
    · subst hl
      have : setEnvLoop env ("" :: rest) = setEnvLoop env rest := rfl
      rw [this]
      exact ih env hrest
    · rcases h line (List.mem_cons_self line rest) with he | hs
      · exact absurd he hl
      · cases hsplit : strchrSplit '=' line with
        | none => rw [hsplit] at hs; simp at hs
        | some kv =>
          obtain ⟨name, value⟩ := kv
          have hstep : setEnvLoop env (line :: rest) =
              setEnvLoop (setEnvironmentVariable env name value) rest := by
            simp only [setEnvLoop]
            rw [if_neg hl, hsplit]
          rw [hstep]
          exact ih (setEnvironmentVariable env name value) hrest

/-! ## Claim C2 -/

/-- Counterexample to claim C2: a configuration file with no `CommandLine`
line loads successfully (with `lpCommandLine = NULL`); the loader performs
no `MissingRequiredField` check after consuming the file. -/
theorem c2_counterexample :
    GetSrvConfig fsC2 "cfg" [] =
      Except.ok (⟨some "x", none, none, none⟩, []) := by rfl

/-- Claim C2 (amended): for every configuration file in which no line has
keyword `CommandLine`, a successful load returns a configuration whose
`lpCommandLine` is still `NULL`; the absence of `CommandLine` is not
detected as an error after the file is consumed. -/
theorem c2_amended_no_commandline_loads_null (fs : String → Option (List String))
    (name : String) (ambient : Env) (lines : List String)
    (cfg : SrvConfig) (env : Env)
    (hfile : fs name = some lines)
    (hno : ∀ l ∈ lines, configKeyword l ≠ some "CommandLine")
    (hok : GetSrvConfig fs name ambient = Except.ok (cfg, env)) :
    cfg.lpCommandLine = none := by
  unfold GetSrvConfig at hok
  rw [hfile] at hok
  exact getSrvConfigLoop_commandLine_invariant fs lines ⟨none, none, none, none⟩
    ambient (cfg, env) hno hok

/-- Witness for the amended claim C2 at the concrete file of the
counterexample. -/
theorem c2_amended_witness :
    (⟨some "x", none, none, none⟩ : SrvConfig).lpCommandLine = none :=
  c2_amended_no_commandline_loads_null fsC2 "cfg" [] ["ApplicationName=x"]
    ⟨some "x", none, none, none⟩ [] rfl (by decide) rfl

/-! ## Claim C3 -/

/-- Counterexample to claim C3: resolving the `inline` environment spec
with the single entry `A=1` mutates the ambient environment (it grows from
empty to `[("A", "1")]`) and returns the inherit sentinel `NULL` instead
of a self-contained mapping. -/
theorem c3_counterexample :
    GetSrvEnvironment fsEmpty "inline" ["A=1"] [] =
      Except.ok ⟨none, [("A", "1")], true⟩ ∧
    ([("A", "1")] : Env) ≠ ([] : Env) :=
  ⟨rfl, by decide⟩

/-- Claim C3 (amended): the resolver never produces a self-contained
environment block — it always stores the inherit sentinel `NULL` into
`plpEnvironment`; the ambient process environment is left unchanged only
for the `default` spec, while `file` and `inline` specs update it in
place via `SetEnvironmentVariable`. -/
theorem c3_amended_sentinel_and_default_frame (fs : String → Option (List String))
    (src : String) (inlineLines : List String) (ambient : Env) (r : EnvResult)
    (h : GetSrvEnvironment fs src inlineLines ambient = Except.ok r) :
    r.lpEnvironment = none ∧ (src = "default" → r.ambient = ambient) := by
  unfold GetSrvEnvironment at h
  by_cases hd : src = "default"
  · rw [if_pos hd] at h
    simp only [Except.ok.injEq] at h
    rw [← h]
    exact ⟨rfl, fun _ => rfl⟩
  · rw [if_neg hd] at h
    refine ⟨?_, fun hcontra => absurd hcontra hd⟩
    by_cases hi : src = "inline"
    · rw [if_pos hi] at h
      split at h
      · exact absurd h (by simp)
      · simp only [Except.ok.injEq] at h
        rw [← h]
    · rw [if_neg hi] at h
      split at h
      · exact absurd h (by simp)
      · rename_i kw path heq
        split at h
        · split at h
          · exact absurd h (by simp)
          · split at h
            · exact absurd h (by simp)
            · simp only [Except.ok.injEq] at h
              rw [← h]
        · exact absurd h (by simp)

/-- Witness for the amended claim C3 at the `default` spec. -/
theorem c3_amended_witness :
    (⟨none, [("X", "y")], false⟩ : EnvResult).lpEnvironment = none ∧
    (⟨none, [("X", "y")], false⟩ : EnvResult).ambient = [("X", "y")] :=
  ⟨(c3_amended_sentinel_and_default_frame fsEmpty "default" [] [("X", "y")]
      ⟨none, [("X", "y")], false⟩ rfl).1,
   (c3_amended_sentinel_and_default_frame fsEmpty "default" [] [("X", "y")]
      ⟨none, [("X", "y")], false⟩ rfl).2 rfl⟩

/-! ## Claim C4 -/

/-- Counterexample to claim C4: a configuration file with
`Environment=inline` followed by the keyword line `CommandLine=x` loads
successfully — the leftover keyword line is consumed as the environment
entry `CommandLine=x`, not rejected as `UnknownKeyword`. -/
theorem c4_counterexample :
    GetSrvConfig fsC4 "cfg" [] =
      Except.ok (⟨none, none, none, none⟩, [("CommandLine", "x")]) := by rfl

/-- Claim C4 (amended): `inline` mode consumes all remaining lines of the
configuration file to end-of-file; when each remaining line is empty or of
the form `name=value` — which includes lines whose key is a recognized
configuration keyword such as `CommandLine` — the resolution succeeds and
stores the inherit sentinel, treating those lines as environment entries
rather than failing with `UnknownKeyword`. -/
theorem c4_amended_inline_consumes_to_eof (fs : String → Option (List String))
    (rest : List String) (ambient : Env)
    (hok : ∀ l ∈ rest, l = "" ∨ (strchrSplit '=' l).isSome = true) :
    (GetSrvEnvironment fs "inline" rest ambient).toOption.map
      (fun r => (r.lpEnvironment, r.consumedAll)) = some (none, true) := by
  obtain ⟨env1, he⟩ := setEnvLoop_total rest ambient hok
  unfold GetSrvEnvironment
  rw [if_neg (by decide), if_pos rfl, he]
  rfl

/-- Witness for the amended claim C4 at the counterexample's leftover
keyword line. -/
theorem c4_amended_witness :
    (GetSrvEnvironment fsEmpty "inline" ["CommandLine=x"] []).toOption.map
      (fun r => (r.lpEnvironment, r.consumedAll)) = some (none, true) :=
  c4_amended_inline_consumes_to_eof fsEmpty ["CommandLine=x"] [] (by decide)

/-! ## Claim C8 -/

/-- Counterexample to claim C8: the three loader failure conditions —
a non-empty line without `=`, an unrecognized keyword, and a bad
`Environment` source token — all fail with the same single error code
`ERROR_BAD_FORMAT`; the implementation does not distinguish them as three
error classes. -/
theorem c8_counterexample :
    GetSrvConfig fsC8 "malformed" [] = Except.error WinError.badFormat ∧
    GetSrvConfig fsC8 "unknown" [] = Except.error WinError.badFormat ∧
    GetSrvConfig fsC8 "badsource" [] = Except.error WinError.badFormat :=
  ⟨rfl, rfl, rfl⟩

/-- Claim C8 (amended): whenever the loader reaches a non-empty line
without `=`, a line with an unrecognized keyword, or an `Environment`
line with a bad source token, the load fails — but all three conditions
set the same error code `ERROR_BAD_FORMAT`; they are not three distinct
error classes. -/
theorem c8_amended_three_conditions_same_code (fs : String → Option (List String))
    (line : String) (rest : List String) (cfg : SrvConfig) (env : Env)
    (hne : line ≠ "") :
    (strchrSplit '=' line = none →
      getSrvConfigLoop fs (line :: rest) cfg env = Except.error WinError.badFormat) ∧
    (∀ keyword value, strchrSplit '=' line = some (keyword, value) →
      keyword ≠ "ApplicationName" → keyword ≠ "CommandLine" →
      keyword ≠ "CurrentDirectory" → keyword ≠ "Environment" →
      getSrvConfigLoop fs (line :: rest) cfg env = Except.error WinError.badFormat) ∧
    (∀ value, strchrSplit '=' line = some ("Environment", value) →
      badEnvSource value = true →
      getSrvConfigLoop fs (line :: rest) cfg env = Except.error WinError.badFormat) := by
  refine ⟨?_, ?_, ?_⟩
  · intro hsplit
    exact getSrvConfigLoop_malformed fs line rest cfg env hne hsplit
  · intro keyword value hsplit h1 h2 h3 h4
    rw [getSrvConfigLoop_keyword fs line rest cfg env keyword value hne hsplit]
    rw [if_neg h1, if_neg h2, if_neg h3, if_neg h4]
  · intro value hsplit hbad
    rw [getSrvConfigLoop_keyword fs line rest cfg env "Environment" value hne hsplit]
    rw [if_neg (by decide), if_neg (by decide), if_neg (by decide), if_pos rfl]
    rw [getSrvEnvironment_badSource fs value rest env hbad]

/-- Witness for the amended claim C8 at the three concrete failing
lines. -/
theorem c8_amended_witness :
    getSrvConfigLoop fsEmpty ["noequals"] ⟨none, none, none, none⟩ [] =
      Except.error WinError.badFormat ∧
    getSrvConfigLoop fsEmpty ["Foo=1"] ⟨none, none, none, none⟩ [] =
      Except.error WinError.badFormat ∧
    getSrvConfigLoop fsEmpty ["Environment=bogus"] ⟨none, none, none, none⟩ [] =
      Except.error WinError.badFormat :=
  ⟨(c8_amended_three_conditions_same_code fsEmpty "noequals" [] ⟨none, none, none, none⟩
      [] (by decide)).1 (by decide),
   (c8_amended_three_conditions_same_code fsEmpty "Foo=1" [] ⟨none, none, none, none⟩
      [] (by decide)).2.1 "Foo" "1" (by decide) (by decide) (by decide) (by decide)
      (by decide),
   (c8_amended_three_conditions_same_code fsEmpty "Environment=bogus" []
      ⟨none, none, none, none⟩ [] (by decide)).2.2 "bogus" (by decide) (by decide)⟩

/-! ## Claim C9 -/

/-- Counterexample to claim C9: a configuration file whose only line is a
single space fails the load with `ERROR_BAD_FORMAT` — the whitespace-only
line is not skipped. -/
theorem c9_counterexample :
    GetSrvConfig fsC9 "cfg" [] = Except.error WinError.badFormat := by rfl

/-- Claim C9 (amended): only lines that are empty are skipped by the
loader (no error, no field set, no effect on the result); a non-empty
line containing only whitespace is not skipped — since it contains no
`=`, it fails the load with `ERROR_BAD_FORMAT`. -/
theorem c9_amended_only_empty_lines_skipped (fs : String → Option (List String))
    (rest : List String) (cfg : SrvConfig) (env : Env) :
    getSrvConfigLoop fs ("" :: rest) cfg env = getSrvConfigLoop fs rest cfg env ∧
    ∀ line : String, line ≠ "" → (∀ ch ∈ line.toList, ch = ' ' ∨ ch = '\t') →
      getSrvConfigLoop fs (line :: rest) cfg env = Except.error WinError.badFormat := by
  constructor
  · exact getSrvConfigLoop_empty fs rest cfg env
  · intro line hne hws
    have h1 : strchrSplit '=' line = none := by
      unfold strchrSplit
      rw [splitAtFirst_eq_none_of_not_mem '=' line.toList ?_]
      intro hmem
      rcases hws _ hmem with h | h <;> exact absurd h (by decide)
    exact getSrvConfigLoop_malformed fs line rest cfg env hne h1

/-- Witness for the amended claim C9 at the single-space line. -/
theorem c9_amended_witness :
    getSrvConfigLoop fsEmpty [" "] ⟨none, none, none, none⟩ [] =
      Except.error WinError.badFormat :=
  (c9_amended_only_empty_lines_skipped fsEmpty [] ⟨none, none, none, none⟩ []).2
    " " (by decide) (by decide)

/-! ## Reporter lemmas -/

/-- One step of `runReports`. -/
lemma runReports_cons (chk : Nat) (st : SvcState) (ec wh : Nat)
    (rest : List (SvcState × Nat × Nat)) :
    runReports chk ((st, ec, wh) :: rest) =
      (reportSvcStatusStep chk st ec wh).1 ::
        runReports (reportSvcStatusStep chk st ec wh).2 rest := rfl

/-- `pendingCheckpoints` keeps exactly the pending head statuses. -/
lemma pendingCheckpoints_cons (s : ServiceStatus) (l : List ServiceStatus) :
    pendingCheckpoints (s :: l) =
      if isPendingState s.dwCurrentState then s.dwCheckPoint :: pendingCheckpoints l
      else pendingCheckpoints l := by
  unfold pendingCheckpoints
  by_cases h : isPendingState s.dwCurrentState <;> simp [List.filter_cons, h]

/-- `nonPendingCheckpoints` keeps exactly the non-pending head statuses. -/
lemma nonPendingCheckpoints_cons (s : ServiceStatus) (l : List ServiceStatus) :
    nonPendingCheckpoints (s :: l) =
      if isPendingState s.dwCurrentState then nonPendingCheckpoints l
      else s.dwCheckPoint :: nonPendingCheckpoints l := by
  unfold nonPendingCheckpoints
  by_cases h : isPendingState s.dwCurrentState <;> simp [List.filter_cons, h]

/-- The checkpoints forwarded at pending reports are strictly increasing,
and all of them are at least the current value of the static counter. -/
lemma runReports_pending_mono :
    ∀ (calls : List (SvcState × Nat × Nat)) (chk : Nat),
      (pendingCheckpoints (runReports chk calls)).Pairwise (· < ·) ∧
      ∀ c ∈ pendingCheckpoints (runReports chk calls), chk ≤ c := by
  intro calls
  induction calls with
  | nil =>
    intro chk
    constructor
    · exact List.Pairwise.nil
    · intro c hc
      simp [runReports, pendingCheckpoints] at hc
  | cons call rest ih =>
    intro chk
    obtain ⟨st, ec, wh⟩ := call
    cases st with
    | running =>
      simpa only [runReports_cons, reportSvcStatusStep, pendingCheckpoints_cons,
        isPendingState, if_true, if_false, reduceCtorEq, or_self, ite_false,
        ite_true, eq_self_iff_true, or_false, false_or] using ih chk
    | stopped =>
      simpa only [runReports_cons, reportSvcStatusStep, pendingCheckpoints_cons,
        isPendingState, if_true, if_false, reduceCtorEq, or_self, ite_false,
        ite_true, eq_self_iff_true, or_false, false_or] using ih chk
    | startPending =>
      obtain ⟨hpair, hbound⟩ := ih (chk + 1)
      simp only [runReports_cons, reportSvcStatusStep, pendingCheckpoints_cons,
        isPendingState, if_true, if_false, reduceCtorEq, or_self, ite_false,
        ite_true, eq_self_iff_true, or_false, false_or]
      constructor
      · rw [List.pairwise_cons]
        exact ⟨fun c hc => Nat.lt_of_succ_le (hbound c hc), hpair⟩
      · intro c hc
        rcases List.mem_cons.mp hc with hhead | htail
        · rw [hhead]
        · exact Nat.le_of_succ_le (hbound c htail)
    | stopPending =>
      obtain ⟨hpair, hbound⟩ := ih (chk + 1)
      simp only [runReports_cons, reportSvcStatusStep, pendingCheckpoints_cons,
        isPendingState, if_true, if_false, reduceCtorEq, or_self, ite_false,
        ite_true, eq_self_iff_true, or_false, false_or]
      constructor
      · rw [List.pairwise_cons]
        exact ⟨fun c hc => Nat.lt_of_succ_le (hbound c hc), hpair⟩
      · intro c hc
        rcases List.mem_cons.mp hc with hhead | htail
        · rw [hhead]
        · exact Nat.le_of_succ_le (hbound c htail)

/-- Every status forwarded with state `Running` or `Stopped` carries
checkpoint zero. -/
lemma runReports_nonpending_zero :
    ∀ (calls : List (SvcState × Nat × Nat)) (chk : Nat),
      (nonPendingCheckpoints (runReports chk calls)).all (fun c => c == 0) = true := by
  intro calls
  induction calls with
  | nil => intro chk; rfl
  | cons call rest ih =>
    intro chk
    obtain ⟨st, ec, wh⟩ := call
    cases st with
    | running =>
      simp only [runReports_cons, reportSvcStatusStep, nonPendingCheckpoints_cons,
        isPendingState, if_true, if_false, reduceCtorEq, or_self, ite_false,
        ite_true, eq_self_iff_true, or_false, false_or, List.all_cons,
        Bool.and_eq_true, beq_self_eq_true, true_and]
      exact ih chk
    | stopped =>
      simp only [runReports_cons, reportSvcStatusStep, nonPendingCheckpoints_cons,
        isPendingState, if_true, if_false, reduceCtorEq, or_self, ite_false,
        ite_true, eq_self_iff_true, or_false, false_or, List.all_cons,
        Bool.and_eq_true, beq_self_eq_true, true_and]
      exact ih chk
    | startPending =>
      simp only [runReports_cons, reportSvcStatusStep, nonPendingCheckpoints_cons,
        isPendingState, if_true, if_false, reduceCtorEq, or_self, ite_false,
        ite_true, eq_self_iff_true, or_false, false_or]
      exact ih (chk + 1)
    | stopPending =>
      simp only [runReports_cons, reportSvcStatusStep, nonPendingCheckpoints_cons,
        isPendingState, if_true, if_false, reduceCtorEq, or_self, ite_false,
        ite_true, eq_self_iff_true, or_false, false_or]
      exact ih (chk + 1)

/-! ## Claim C7 -/

/-- Claim C7: across every sequence of reporter calls in one run (the
static counter starts at 1), the checkpoint values forwarded while in a
pending state are strictly increasing from one pending report to the
next, and every report of state `Running` or `Stopped` forwards
checkpoint zero. -/
theorem c7_checkpoint_discipline (calls : List (SvcState × Nat × Nat)) :
    (pendingCheckpoints (runReports 1 calls)).Pairwise (· < ·) ∧
    (nonPendingCheckpoints (runReports 1 calls)).all (fun c => c == 0) = true :=
  ⟨(runReports_pending_mono calls 1).1, runReports_nonpending_zero calls 1⟩


/-! ## Supervisor trace lemmas -/

/-- Is this event the cooperative interrupt? -/
def isInterruptEvent : Event → Bool
  | Event.ctrlInterrupt => true
  | _ => false

/-- Is this event the release of the child process handle? -/
def isCloseProcessEvent : Event → Bool
  | Event.closeProcessHandle => true
  | _ => false

/-- Is this event the `GetExitCodeProcess` call? -/
def isGetExitCodeEvent : Event → Bool
  | Event.getExitCode => true
  | _ => false

/-- Is this event escalation-relevant (interrupt, timed wait, kill)? -/
def isCoreAction : Event → Bool
  | Event.ctrlInterrupt => true
  | Event.timerWait _ => true
  | Event.terminate => true
  | _ => false

/-- The error record carried by an event, if any. -/
def errorRecordOf : Event → List (String × Nat)
  | Event.logErrorRecord operation code => [(operation, code)]
  | _ => []

/-- The reported state carried by an event, if any. -/
def reportedStateOf : Event → List SvcState
  | Event.report s => [s]
  | _ => []

lemma countInterrupts_nil : countInterrupts [] = 0 := rfl

lemma countInterrupts_cons (e : Event) (l : List Event) :
    countInterrupts (e :: l) =
      countInterrupts l + (if isInterruptEvent e then 1 else 0) := by
  cases e <;> rfl

lemma countCloses_nil : countCloses [] = 0 := rfl

lemma countCloses_cons (e : Event) (l : List Event) :
    countCloses (e :: l) =
      countCloses l + (if isCloseProcessEvent e then 1 else 0) := by
  cases e <;> rfl

lemma countGetExitCode_nil : countGetExitCode [] = 0 := rfl

lemma countGetExitCode_cons (e : Event) (l : List Event) :
    countGetExitCode (e :: l) =
      countGetExitCode l + (if isGetExitCodeEvent e then 1 else 0) := by
  cases e <;> rfl

lemma coreActions_nil : coreActions [] = [] := rfl

lemma coreActions_cons (e : Event) (l : List Event) :
    coreActions (e :: l) =
      if isCoreAction e then e :: coreActions l else coreActions l := by
  cases e <;> rfl

lemma errorRecords_nil : errorRecords [] = [] := rfl

lemma errorRecords_cons (e : Event) (l : List Event) :
    errorRecords (e :: l) = errorRecordOf e ++ errorRecords l := by
  cases e <;> rfl

lemma reportedStates_nil : reportedStates [] = [] := rfl

lemma reportedStates_cons (e : Event) (l : List Event) :
    reportedStates (e :: l) = reportedStateOf e ++ reportedStates l := by
  cases e <;> rfl

/-- `countInterrupts` over an error-logging tail. -/
lemma countInterrupts_logError (operation : String) (code : Nat) (b : Bool) :
    countInterrupts (logErrorEvents operation code b) = 0 := by cases b <;> rfl

/-- `coreActions` over an error-logging tail. -/
lemma coreActions_logError (operation : String) (code : Nat) (b : Bool) :
    coreActions (logErrorEvents operation code b) = [] := by cases b <;> rfl

/-- `countCloses` over an error-logging tail. -/
lemma countCloses_logError (operation : String) (code : Nat) (b : Bool) :
    countCloses (logErrorEvents operation code b) = 0 := by cases b <;> rfl

/-- `countGetExitCode` over an error-logging tail. -/
lemma countGetExitCode_logError (operation : String) (code : Nat) (b : Bool) :
    countGetExitCode (logErrorEvents operation code b) = 0 := by cases b <;> rfl

/-- `errorRecords` over an error-logging tail. -/
lemma errorRecords_logError (operation : String) (code : Nat) (b : Bool) :
    errorRecords (logErrorEvents operation code b) = [(operation, code)] := by
  cases b <;> rfl

/-- `countInterrupts` distributes over a conditional trace. -/
lemma countInterrupts_ite (c : Prop) [Decidable c] (a b : List Event) :
    countInterrupts (if c then a else b) =
      if c then countInterrupts a else countInterrupts b := by
  split <;> rfl

/-- `coreActions` distributes over a conditional trace. -/
lemma coreActions_ite (c : Prop) [Decidable c] (a b : List Event) :
    coreActions (if c then a else b) =
      if c then coreActions a else coreActions b := by
  split <;> rfl

/-- `countCloses` distributes over a conditional trace. -/
lemma countCloses_ite (c : Prop) [Decidable c] (a b : List Event) :
    countCloses (if c then a else b) =
      if c then countCloses a else countCloses b := by
  split <;> rfl

/-- `countGetExitCode` distributes over a conditional trace. -/
lemma countGetExitCode_ite (c : Prop) [Decidable c] (a b : List Event) :
    countGetExitCode (if c then a else b) =
      if c then countGetExitCode a else countGetExitCode b := by
  split <;> rfl

/-- `errorRecords` distributes over a conditional trace. -/
lemma errorRecords_ite (c : Prop) [Decidable c] (a b : List Event) :
    errorRecords (if c then a else b) =
      if c then errorRecords a else errorRecords b := by
  split <;> rfl

/-- The child-exit branch performs no escalation action. -/
lemma coreActions_childExitPath (o : Oracle) : coreActions (childExitPath o) = [] := by
  unfold childExitPath
  cases h : o.getExitCodeOk <;>
    simp [coreActions_cons, coreActions_nil, coreActions_logError, coreActions_ite,
      isCoreAction, endSequence, ite_self]

/-- The child-exit branch sends no interrupt. -/
lemma countInterrupts_childExitPath (o : Oracle) :
    countInterrupts (childExitPath o) = 0 := by
  unfold childExitPath
  cases h : o.getExitCodeOk <;>
    simp [countInterrupts_cons, countInterrupts_nil, countInterrupts_logError,
      countInterrupts_ite, isInterruptEvent, endSequence, ite_self]

/-- Escalation discipline of the stop branch: at most one interrupt, and
the escalation-relevant actions occur in the order interrupt, timed wait,
forced kill, the kill occurring only when the wait timed out. -/
lemma stopPath_core (o : Oracle) :
    countInterrupts (stopPath o) ≤ 1 ∧
    (coreActions (stopPath o) = [] ∨
     coreActions (stopPath o) = [Event.ctrlInterrupt] ∨
     coreActions (stopPath o) =
       [Event.ctrlInterrupt, Event.timerWait (waitSecondsBeforeKill * 1000)] ∨
     (coreActions (stopPath o) =
        [Event.ctrlInterrupt, Event.timerWait (waitSecondsBeforeKill * 1000),
          Event.terminate] ∧
      o.stopWait = StopWait.timeout)) := by
  unfold stopPath
  cases h1 : o.setCtrlHandlerOk <;> cases h2 : o.generateCtrlEventOk <;>
    cases h3 : o.stopWait <;> cases h4 : o.terminateOk <;>
    simp [countInterrupts_cons, countInterrupts_nil, countInterrupts_logError,
      coreActions_cons, coreActions_nil, coreActions_logError, isCoreAction,
      isInterruptEvent, endSequence]

/-- The stop branch never reads the child exit code and never logs a
`Child process` failure record. -/
lemma stopPath_no_exit_code (o : Oracle) :
    countGetExitCode (stopPath o) = 0 ∧
    (errorRecords (stopPath o)).all (fun p => p.1 != "Child process") = true := by
  unfold stopPath
  cases h1 : o.setCtrlHandlerOk <;> cases h2 : o.generateCtrlEventOk <;>
    cases h3 : o.stopWait <;> cases h4 : o.terminateOk <;>
    simp [countGetExitCode_cons, countGetExitCode_nil, countGetExitCode_logError,
      isGetExitCodeEvent, errorRecords_cons, errorRecords_nil, errorRecords_logError,
      errorRecordOf, endSequence]

/-- Did the run reach a successful launch and take one of the paths that
falls through to the common handle-closing tail? -/
def fallThroughRun (o : Oracle) : Bool :=
  o.registerOk && o.createEventOk && o.allocConsoleOk && o.configOk && o.createProcessOk &&
  (match o.firstWait with
   | FirstWait.childExit => o.getExitCodeOk && (o.exitCode == 0)
   | FirstWait.stop =>
     o.setCtrlHandlerOk && o.generateCtrlEventOk &&
       (match o.stopWait with
        | StopWait.childExit => true
        | StopWait.timeout => o.terminateOk
        | StopWait.failed => false)
   | FirstWait.failed => false)

/-- Was the child observed to terminate (spontaneous exit, exit during the
escalation wait, or successful forced kill)? -/
def childTerminated (o : Oracle) : Bool :=
  match o.firstWait with
  | FirstWait.childExit => true
  | FirstWait.stop =>
    (match o.stopWait with
     | StopWait.childExit => true
     | StopWait.timeout => o.terminateOk
     | StopWait.failed => false)
  | FirstWait.failed => false

/-- Handle closes in the child-exit branch. -/
lemma countCloses_childExitPath (o : Oracle) :
    countCloses (childExitPath o) =
      if (o.getExitCodeOk && (o.exitCode == 0)) then 1 else 0 := by
  unfold childExitPath
  cases h : o.getExitCodeOk <;> by_cases he : o.exitCode = 0 <;>
    simp [countCloses_cons, countCloses_nil, countCloses_logError, countCloses_ite,
      isCloseProcessEvent, endSequence, he, ite_self]

/-- Handle closes in the stop branch. -/
lemma countCloses_stopPath (o : Oracle) :
    countCloses (stopPath o) =
      if (o.setCtrlHandlerOk && o.generateCtrlEventOk &&
          (match o.stopWait with
           | StopWait.childExit => true
           | StopWait.timeout => o.terminateOk
           | StopWait.failed => false)) then 1 else 0 := by
  unfold stopPath
  cases h1 : o.setCtrlHandlerOk <;> cases h2 : o.generateCtrlEventOk <;>
    cases h3 : o.stopWait <;> cases h4 : o.terminateOk <;>
    simp [countCloses_cons, countCloses_nil, countCloses_logError,
      isCloseProcessEvent, endSequence]

/-! ## Claim C1 -/

/-- Claim C1: in every run, the cooperative interrupt is sent at most
once; the escalation-relevant actions of the trace are exactly one of:
none, interrupt only, interrupt then the timed escalation wait, or
interrupt, wait and forced kill — the kill occurring only when the wait
reported a timeout (the full budget elapsed without the child
terminating); and the escalation budget is the fixed 30 seconds. -/
theorem c1_interrupt_once_before_timer_before_kill (o : Oracle) :
    countInterrupts (SvcMain o) ≤ 1 ∧
    (coreActions (SvcMain o) = [] ∨
     coreActions (SvcMain o) = [Event.ctrlInterrupt] ∨
     coreActions (SvcMain o) =
       [Event.ctrlInterrupt, Event.timerWait (waitSecondsBeforeKill * 1000)] ∨
     (coreActions (SvcMain o) =
        [Event.ctrlInterrupt, Event.timerWait (waitSecondsBeforeKill * 1000),
          Event.terminate] ∧
      o.stopWait = StopWait.timeout)) ∧
    waitSecondsBeforeKill = 30 := by
  have hs := stopPath_core o
  have hc1 := countInterrupts_childExitPath o
  have hc2 := coreActions_childExitPath o
  refine ⟨?_, ?_, rfl⟩
  all_goals
    unfold SvcMain
    cases hr : o.registerOk <;> cases hce : o.createEventOk <;>
      cases hac : o.allocConsoleOk <;> cases hcf : o.configOk <;>
      cases hcp : o.createProcessOk <;> cases hfw : o.firstWait <;>
      simp [countInterrupts_cons, countInterrupts_nil, countInterrupts_logError,
        coreActions_cons, coreActions_nil, coreActions_logError, isCoreAction,
        isInterruptEvent, hc1, hc2]
  all_goals simp [hs.1, hs.2]

/-! ## Claim C10 -/

/-- Claim C10: in every run in which the stop request is observed first,
the supervisor never calls `GetExitCodeProcess` and never logs a
`Child process` failure record — the child exit code is examined only on
the spontaneous-exit path. -/
theorem c10_exit_code_only_on_spontaneous_path (o : Oracle)
    (h : o.firstWait = FirstWait.stop) :
    countGetExitCode (SvcMain o) = 0 ∧
    (errorRecords (SvcMain o)).all (fun p => p.1 != "Child process") = true := by
  have hstop := stopPath_no_exit_code o
  unfold SvcMain
  rw [h]
  cases hr : o.registerOk <;> cases hce : o.createEventOk <;>
    cases hac : o.allocConsoleOk <;> cases hcf : o.configOk <;>
    cases hcp : o.createProcessOk <;>
    simp [countGetExitCode_cons, countGetExitCode_nil, countGetExitCode_logError,
      isGetExitCodeEvent, errorRecords_cons, errorRecords_nil, errorRecords_logError,
      errorRecordOf, hstop.1, hstop.2]

/-- Concrete oracle for the claim C10 witness: stop request observed
first, child exits during the escalation wait carrying a non-zero exit
code that is never examined. -/
def oC10 : Oracle :=
  ⟨true, true, true, true, true, FirstWait.stop, true, true, StopWait.childExit, true,
    true, 5, 0⟩

/-- Witness for claim C10 at a concrete stop-first run. -/
theorem c10_witness :
    countGetExitCode (SvcMain oC10) = 0 ∧
    (errorRecords (SvcMain oC10)).all (fun p => p.1 != "Child process") = true :=
  c10_exit_code_only_on_spontaneous_path oC10 rfl

/-! ## Claim C5 -/

/-- Claim C5: in every run that launches successfully and whose child
exits spontaneously (no stop request observed) with a non-zero exit code,
exactly one error record is logged and it carries that exit code (under
the operation name `Child process`), the last reported authority state is
`Stopped`, and the supervisor process itself still exits with
`EXIT_SUCCESS` once the dispatcher returns. -/
theorem c5_child_failure_exit_reported (o : Oracle)
    (h1 : o.registerOk = true) (h2 : o.createEventOk = true)
    (h3 : o.allocConsoleOk = true) (h4 : o.configOk = true)
    (h5 : o.createProcessOk = true) (h6 : o.firstWait = FirstWait.childExit)
    (h7 : o.getExitCodeOk = true) (h8 : o.exitCode ≠ 0) :
    errorRecords (SvcMain o) = [("Child process", o.exitCode)] ∧
    (reportedStates (SvcMain o)).getLast? = some SvcState.stopped ∧
    mainResult 3 true = EXIT_SUCCESS := by
  have htrace : SvcMain o =
      [Event.report SvcState.startPending, Event.report SvcState.running,
       Event.logInfoEvent "Child process terminated", Event.report SvcState.stopPending,
       Event.getExitCode, Event.logErrorRecord "Child process" o.exitCode,
       Event.report SvcState.stopped] := by
    unfold SvcMain childExitPath
    rw [h1, h2, h3, h4, h5, h6, h7]
    simp [logErrorEvents, h8]
  rw [htrace]
  exact ⟨rfl, rfl, rfl⟩

/-- Concrete oracle for the claim C5 witness: clean launch, spontaneous
child exit with code 5. -/
def oC5 : Oracle :=
  ⟨true, true, true, true, true, FirstWait.childExit, true, true, StopWait.childExit,
    true, true, 5, 0⟩

/-- Witness for claim C5 at the concrete exit-code-5 run. -/
theorem c5_witness :
    errorRecords (SvcMain oC5) = [("Child process", 5)] ∧
    (reportedStates (SvcMain oC5)).getLast? = some SvcState.stopped ∧
    mainResult 3 true = EXIT_SUCCESS :=
  c5_child_failure_exit_reported oC5 rfl rfl rfl rfl rfl rfl rfl (by decide)

/-! ## Claim C6 -/

/-- Concrete oracle for the claim C6 counterexample: clean launch,
spontaneous child exit with the non-zero code 5. -/
def oC6bad : Oracle :=
  ⟨true, true, true, true, true, FirstWait.childExit, true, true, StopWait.childExit,
    true, true, 5, 0⟩

/-- Counterexample to claim C6: a run that reaches a successful launch
(`Running` is reported) and whose child terminates, yet whose trace
contains no release of the child process handle at all — the spontaneous
non-zero-exit path returns early and skips both `CloseHandle` calls. -/
theorem c6_counterexample :
    Event.report SvcState.running ∈ SvcMain oC6bad ∧
    childTerminated oC6bad = true ∧
    countCloses (SvcMain oC6bad) = 0 := by decide

/-- Claim C6 (amended): the `ChildHandle` is released exactly once on the
runs that fall through to the common closing tail (spontaneous exit with
code 0, stop-path exit during the escalation wait, or successful forced
kill), and zero times on every other run — including the run whose child
exits spontaneously with a non-zero code, which returns early; it is
never released twice, and every run that releases it is one in which the
child terminated. -/
theorem c6_amended_handle_release (o : Oracle) :
    countCloses (SvcMain o) = (if fallThroughRun o then 1 else 0) ∧
    (fallThroughRun o = true → childTerminated o = true) := by
  have hstop := countCloses_stopPath o
  have hchild := countCloses_childExitPath o
  unfold SvcMain
  simp only [fallThroughRun, childTerminated]
  obtain ⟨reg, cev, ac, cfg, cp, fw, sch, gce, sw, term, gec, exc, le⟩ := o
  cases reg <;> cases cev <;> cases ac <;> cases cfg <;> cases cp <;> cases fw <;>
    simp_all [countCloses_cons, countCloses_nil, countCloses_logError,
      isCloseProcessEvent]

/-- Concrete oracle for the claim C6 witness: clean launch, stop request,
child exits within the escalation budget. -/
def oC6good : Oracle :=
  ⟨true, true, true, true, true, FirstWait.stop, true, true, StopWait.childExit, true,
    true, 0, 0⟩

/-- Witness for the amended claim C6 at a clean stop-path run: the handle
is released exactly once and the child terminated. -/
theorem c6_amended_witness :
    countCloses (SvcMain oC6good) = 1 ∧ childTerminated oC6good = true := by
  have h := c6_amended_handle_release oC6good
  exact ⟨by rw [h.1]; rfl, h.2 rfl⟩

end SrvWrap
